import Mathlib

/-!
Verification of the publish state machine of the text-sentiment-nlp-publisher
repository, a shallow embedding of `src/devto_publisher.py` and
`src/hashnode_publisher.py`.

Modelling conventions:
* A JSON article record of `articles.json` is the structure `Article`; the
  per-platform flags `devto_published` / `hashnode_published` default to
  `false` when the key is absent in the JSON, so they are total `Bool` fields.
* The network is an oracle: the dev.to run takes `oracle : Nat → HttpResponse`
  giving the response to the n-th POST of the run; the Hashnode script makes
  at most one request, modelled by the `Option String` url that
  `publish_to_hashnode` returns (`none` covers every failure path: non-200,
  GraphQL errors, unsuccessful story, or a success payload without a url).
* Observable side effects (loading the store, selecting an item, POSTing,
  `save_articles`, `time.sleep`) are recorded as an `Event` trace.
* Python `str.rstrip()` is modelled on the ASCII whitespace characters, which
  covers every string the scripts manipulate.
-/

set_option maxRecDepth 16000

/-- ASCII whitespace stripped by Python `str.rstrip()`. -/
def isPyWs (c : Char) : Bool :=
  c == ' ' || c == '\t' || c == '\n' || c == '\r' || c == '\x0b' || c == '\x0c'

/-- Drop trailing whitespace characters, as Python `str.rstrip()`. -/
def rstripChars (l : List Char) : List Char :=
  (l.reverse.dropWhile isPyWs).reverse

/-- Python `str.rstrip()` on strings. -/
def pyRstrip (s : String) : String := String.mk (rstripChars s.data)

/-- Does `pat` match at the head of the second list? -/
def leadEq : List Char → List Char → Bool
  | [], _ => true
  | _ :: _, [] => false
  | p :: ps, c :: cs => p == c && leadEq ps cs

/-- Does `pat` occur as a contiguous substring? Python `pat in s`. -/
def occursIn (pat : List Char) : List Char → Bool
  | [] => leadEq pat []
  | c :: cs => leadEq pat (c :: cs) || occursIn pat cs

/-- First marker substring checked by `build_body_with_cta`. -/
def MARKER_LANDING : String := "text-sentiment-nlp-insights-landing"

/-- Second marker substring checked by `build_body_with_cta`. -/
def MARKER_RAPIDAPI : String := "text-sentiment-nlp-insights-api"

/-- The promotional footer `CTA_SNIPPET` of `devto_publisher.py` (the Python
triple-quoted literal after `.strip("\n")`). -/
def CTA_SNIPPET : String := "---\n\n## Try the Text Sentiment & NLP Insights API\n\nIf you want to work with production-ready sentiment and text intelligence, you can integrate this API directly into your stack:\n\n- Visit the official landing page: [Text Sentiment & NLP Insights API landing page](https://compasssolutionsga.github.io/text-sentiment-nlp-insights-landing/)\n- Explore the hosted version on RapidAPI: [Text Sentiment & NLP Insights API on RapidAPI](https://rapidapi.com/CompassSolutionsGa/api/text-sentiment-nlp-insights-api)"

/-- The marker test of `build_body_with_cta`: either marker substring occurs. -/
def containsMarker (s : String) : Bool :=
  occursIn MARKER_LANDING.data s.data || occursIn MARKER_RAPIDAPI.data s.data

/-- `build_body_with_cta` of `devto_publisher.py`: rstrip the body, return it
unchanged when a marker is already present, otherwise append the CTA after a
blank line (or return the bare CTA when the stripped body is empty). -/
def build_body_with_cta (raw_body : String) : String :=
  let body := pyRstrip raw_body
  if containsMarker body then
    body
  else if body = "" then
    CTA_SNIPPET
  else
    body ++ "\n\n" ++ CTA_SNIPPET

/-- One record of `articles.json`.  The boolean platform flags model
`article.get("devto_published", False)` / `article.get("hashnode_published")`,
absent keys reading as `false`; the url fields model the optional
`devto_url` / `hashnode_url` keys. -/
structure Article where
  title : String
  body_markdown : String
  content_markdown : String
  canonical_url : String
  series : Option String
  tags : List String
  devto_published : Bool
  devto_url : Option String
  hashnode_published : Bool
  hashnode_url : Option String
deriving DecidableEq

/-- The platform-independent content of an article: every field except the
per-platform delivery state. -/
structure ItemCore where
  title : String
  body_markdown : String
  content_markdown : String
  canonical_url : String
  series : Option String
  tags : List String
deriving DecidableEq

/-- Project an article to its platform-independent content. -/
def Article.core (a : Article) : ItemCore :=
  { title := a.title
  , body_markdown := a.body_markdown
  , content_markdown := a.content_markdown
  , canonical_url := a.canonical_url
  , series := a.series
  , tags := a.tags }

/-- The JSON payload `payload["article"]` built by `publish_to_devto`. -/
structure DevtoPayload where
  title : String
  published : Bool
  canonical_url : String
  series : Option String
  tags : List String
  body_markdown : String
  content_markdown : String
deriving DecidableEq

/-- Payload construction of `publish_to_devto` (lines 89–104): CTA injection
on both bodies (`content_markdown or body_markdown` handles the Python falsy
fallback) and the raw `article.get("tags", [])` passed through. -/
def buildDevtoPayload (a : Article) : DevtoPayload :=
  { title := a.title
  , published := true
  , canonical_url := a.canonical_url
  , series := a.series
  , tags := a.tags
  , body_markdown := build_body_with_cta a.body_markdown
  , content_markdown :=
      build_body_with_cta
        (if a.content_markdown = "" then a.body_markdown else a.content_markdown) }

/-- A Hashnode `TagInput` (`slug` and `name` both set to the raw tag). -/
structure HashnodeTagInput where
  slug : String
  tagName : String
deriving DecidableEq

/-- The `input : CreateStoryInput` variables of the Hashnode mutation. -/
structure HashnodeStoryInput where
  title : String
  contentMarkdown : String
  tags : List HashnodeTagInput
  isPartOfPublication : Bool
deriving DecidableEq

/-- The GraphQL variables of `build_hashnode_payload`. -/
structure HashnodePayload where
  pubId : Option String
  input : HashnodeStoryInput
deriving DecidableEq

/-- `build_hashnode_payload` of `hashnode_publisher.py` (lines 38–76): maps
each raw string tag `t` to a `TagInput` with `slug = name = t`. -/
def build_hashnode_payload (pubId : Option String) (a : Article) : HashnodePayload :=
  { pubId := pubId
  , input :=
    { title := a.title
    , contentMarkdown := a.content_markdown
    , tags := a.tags.map (fun t => { slug := t, tagName := t })
    , isPartOfPublication := true } }

/-- The part of an HTTP response that `publish_to_devto` inspects:
`response.status_code`, `response.text`, and `response.json().get("url")`
(the latter only read on status 201). -/
structure HttpResponse where
  status_code : Nat
  text : String
  json_url : Option String
deriving DecidableEq

/-- The result dictionary returned by `publish_to_devto`, one constructor per
`"status"` value. -/
inductive DevtoOutcome where
  | published (url : Option String)
  | canonicalTaken
  | rateLimited
  | validationError (err : String)
  | otherError (err : String)
deriving DecidableEq

/-- The exact error text matched by `publish_to_devto` on status 422. -/
def CANONICAL_TAKEN_MSG : String := "Canonical url has already been taken"

/-- Response classification of `publish_to_devto` (lines 108–135): 201 →
published (url from the body, possibly absent), 429 → rate limited, 422 →
canonical-taken on the matched message else validation error, anything else →
error. -/
def classify_devto (resp : HttpResponse) : DevtoOutcome :=
  if resp.status_code = 201 then
    DevtoOutcome.published resp.json_url
  else if resp.status_code = 429 then
    DevtoOutcome.rateLimited
  else if resp.status_code = 422 then
    if occursIn CANONICAL_TAKEN_MSG.data resp.text.data then
      DevtoOutcome.canonicalTaken
    else
      DevtoOutcome.validationError resp.text
  else
    DevtoOutcome.otherError resp.text

/-- In-place update of the element at an index, as the Python code's
`articles[idx][...] = ...` mutation of the loaded list. -/
def listModify (f : α → α) : Nat → List α → List α
  | _, [] => []
  | 0, a :: as => f a :: as
  | n + 1, a :: as => a :: listModify f n as

/-- The state update of `main` in `devto_publisher.py` (lines 154–158): on
`published` or `canonical_taken` set the flag; record `devto_url` only when
the status is `published` and the url is truthy (neither `None` nor `""`). -/
def applyPublishOutcome : DevtoOutcome → Article → Article
  | DevtoOutcome.published (some url), a =>
      if url = "" then { a with devto_published := true }
      else { a with devto_published := true, devto_url := some url }
  | DevtoOutcome.published none, a => { a with devto_published := true }
  | DevtoOutcome.canonicalTaken, a => { a with devto_published := true }
  | _, a => a

/-- Helper of `get_next_unpublished_devto_index`: first index at or after `i`
whose `devto_published` flag is unset. -/
def nextUnpubDevtoAux : Nat → List Article → Option Nat
  | _, [] => none
  | i, a :: rest =>
      if a.devto_published then nextUnpubDevtoAux (i + 1) rest else some i

/-- `get_next_unpublished_devto_index` of `devto_publisher.py`. -/
def get_next_unpublished_devto_index (articles : List Article) : Option Nat :=
  nextUnpubDevtoAux 0 articles

/-- Helper of `get_next_unpublished_hashnode_index`. -/
def hnNextAux : Nat → List Article → Option Nat
  | _, [] => none
  | i, a :: rest =>
      if a.hashnode_published then hnNextAux (i + 1) rest else some i

/-- Index form of `get_next_unpublished_hashnode` of `hashnode_publisher.py`
(the Python function returns the first un-flagged dict, mutated in place;
the index identifies that record in the list). -/
def get_next_unpublished_hashnode_index (articles : List Article) : Option Nat :=
  hnNextAux 0 articles

/-- Observable side effects of a run, in program order. -/
inductive Event where
  | loadQueue
  | selectItem (idx : Nat)
  | configAbort
  | submit (idx : Nat)
  | save
  | sleep
deriving DecidableEq

/-- Number of occurrences of one event in a trace. -/
def countEv (e : Event) : List Event → Nat
  | [] => 0
  | x :: xs => (if x = e then 1 else 0) + countEv e xs

/-- Is the event a network submission? -/
def isSubmitEv : Event → Bool
  | Event.submit _ => true
  | _ => false

/-- Number of network submissions in a trace. -/
def countSubmits (tr : List Event) : Nat := tr.countP isSubmitEv

/-- Every `save` event is immediately followed by a `sleep` event. -/
def pacedAfterSave : List Event → Bool
  | [] => true
  | Event.save :: rest =>
      match rest with
      | Event.sleep :: _ => pacedAfterSave rest
      | _ => false
  | _ :: rest => pacedAfterSave rest

/-- The `while published_count < MAX_PER_RUN` loop of `main` in
`devto_publisher.py` (lines 142–172).  `fuel` is `MAX_PER_RUN -
published_count`; `attempt` indexes the oracle; the trace records selection,
submission, `save_articles` and `time.sleep(60)`.  A missing API key is the
`sys.exit(1)` inside `publish_to_devto`, reached only once an item has been
selected. -/
def devtoLoop (apiKey : Option String) (oracle : Nat → HttpResponse) :
    Nat → Nat → List Article → List Article × List Event
  | 0, _, arts => (arts, [])
  | fuel + 1, attempt, arts =>
    match get_next_unpublished_devto_index arts with
    | none => (arts, [])
    | some idx =>
      match apiKey with
      | none => (arts, [Event.selectItem idx, Event.configAbort])
      | some _ =>
        match classify_devto (oracle attempt) with
        | DevtoOutcome.published u =>
            let r := devtoLoop apiKey oracle fuel (attempt + 1)
              (listModify (applyPublishOutcome (DevtoOutcome.published u)) idx arts)
            (r.1, Event.selectItem idx :: Event.submit idx :: Event.save ::
                  Event.sleep :: r.2)
        | DevtoOutcome.canonicalTaken =>
            let r := devtoLoop apiKey oracle fuel (attempt + 1)
              (listModify (applyPublishOutcome DevtoOutcome.canonicalTaken) idx arts)
            (r.1, Event.selectItem idx :: Event.submit idx :: Event.save ::
                  Event.sleep :: r.2)
        | DevtoOutcome.rateLimited =>
            (arts, [Event.selectItem idx, Event.submit idx])
        | DevtoOutcome.validationError _ =>
            (arts, [Event.selectItem idx, Event.submit idx])
        | DevtoOutcome.otherError _ =>
            (arts, [Event.selectItem idx, Event.submit idx])

/-- `main` of `devto_publisher.py`: load the store, then run the loop with
`published_count = 0`. -/
def devtoMain (apiKey : Option String) (oracle : Nat → HttpResponse)
    (maxPerRun : Nat) (articles : List Article) : List Article × List Event :=
  ((devtoLoop apiKey oracle maxPerRun 0 articles).1,
   Event.loadQueue :: (devtoLoop apiKey oracle maxPerRun 0 articles).2)

/-- `main` of `hashnode_publisher.py` (lines 113–130): load, pick the first
un-flagged article, publish once; persist only when a url came back.
`creds` are `(HASHNODE_API_KEY, HASHNODE_PUBLICATION_ID)`; `outcome` is the
url returned by `publish_to_hashnode` (`none` on any failure). -/
def hashnodeMain (creds : Option (String × String)) (outcome : Option String)
    (articles : List Article) : List Article × List Event :=
  match get_next_unpublished_hashnode_index articles with
  | none => (articles, [Event.loadQueue])
  | some idx =>
    match creds with
    | none => (articles, [Event.loadQueue, Event.selectItem idx, Event.configAbort])
    | some _ =>
      match outcome with
      | some url =>
          (listModify
            (fun a => { a with hashnode_published := true, hashnode_url := some url })
            idx articles,
           [Event.loadQueue, Event.selectItem idx, Event.submit idx, Event.save])
      | none =>
          (articles, [Event.loadQueue, Event.selectItem idx, Event.submit idx])

/-- The dev.to pending queue: articles whose flag is unset. -/
def devtoQueue (articles : List Article) : List Article :=
  articles.filter (fun a => !a.devto_published)

/-- The dev.to archive: articles whose flag is set. -/
def devtoArchive (articles : List Article) : List Article :=
  articles.filter (fun a => a.devto_published)

/-- The Hashnode pending queue. -/
def hashnodeQueue (articles : List Article) : List Article :=
  articles.filter (fun a => !a.hashnode_published)

/-- The Hashnode archive. -/
def hashnodeArchive (articles : List Article) : List Article :=
  articles.filter (fun a => a.hashnode_published)

/-! ### Lemmas about `rstrip`, substring occurrence and the CTA footer -/

theorem dropWhile_dropWhile (p : Char → Bool) (l : List Char) :
    List.dropWhile p (List.dropWhile p l) = List.dropWhile p l := by
  induction l with
  | nil => rfl
  | cons a l ih =>
    cases h : p a with
    | true => rw [List.dropWhile_cons_of_pos h, ih]
    | false =>
      rw [List.dropWhile_cons_of_neg (by simp [h]),
          List.dropWhile_cons_of_neg (by simp [h])]

theorem rstripChars_rstripChars (l : List Char) :
    rstripChars (rstripChars l) = rstripChars l := by
  unfold rstripChars
  rw [List.reverse_reverse, dropWhile_dropWhile]

theorem pyRstrip_pyRstrip (s : String) : pyRstrip (pyRstrip s) = pyRstrip s := by
  unfold pyRstrip
  exact congrArg String.mk (rstripChars_rstripChars s.data)

theorem rstripChars_append (l1 l2 : List Char)
    (h : l2.reverse.head?.map isPyWs = some false) :
    rstripChars (l1 ++ l2) = l1 ++ l2 := by
  cases h2 : l2.reverse with
  | nil => rw [h2] at h; simp at h
  | cons c cs =>
    rw [h2] at h
    simp only [List.head?_cons, Option.map_some'] at h
    have hc : isPyWs c = false := by simpa using h
    have key : (l1 ++ l2).reverse = c :: (cs ++ l1.reverse) := by
      rw [List.reverse_append, h2]; rfl
    show ((l1 ++ l2).reverse.dropWhile isPyWs).reverse = l1 ++ l2
    rw [key, List.dropWhile_cons_of_neg (by simp [hc]), ← key, List.reverse_reverse]

theorem occursIn_append_left (pat l1 l2 : List Char)
    (h : occursIn pat l2 = true) : occursIn pat (l1 ++ l2) = true := by
  induction l1 with
  | nil => exact h
  | cons c cs ih =>
    show (leadEq pat (c :: (cs ++ l2)) || occursIn pat (cs ++ l2)) = true
    rw [ih, Bool.or_true]

theorem cta_occurs_landing : occursIn MARKER_LANDING.data CTA_SNIPPET.data = true := by
  decide

theorem cta_tail_nonws : CTA_SNIPPET.data.reverse.head?.map isPyWs = some false := by
  decide

theorem string_data_append (a b : String) : (a ++ b).data = a.data ++ b.data := rfl

theorem pyRstrip_cta : pyRstrip CTA_SNIPPET = CTA_SNIPPET := by
  show String.mk (rstripChars CTA_SNIPPET.data) = CTA_SNIPPET
  have h : rstripChars ([] ++ CTA_SNIPPET.data) = [] ++ CTA_SNIPPET.data :=
    rstripChars_append [] CTA_SNIPPET.data cta_tail_nonws
  simp only [List.nil_append] at h
  rw [h]

theorem containsMarker_cta : containsMarker CTA_SNIPPET = true := by
  unfold containsMarker
  rw [cta_occurs_landing, Bool.true_or]

theorem pyRstrip_append_cta (b : String) :
    pyRstrip (b ++ "\n\n" ++ CTA_SNIPPET) = b ++ "\n\n" ++ CTA_SNIPPET := by
  show String.mk (rstripChars (b ++ "\n\n" ++ CTA_SNIPPET).data)
      = b ++ "\n\n" ++ CTA_SNIPPET
  have hd : (b ++ "\n\n" ++ CTA_SNIPPET).data
      = (b ++ "\n\n").data ++ CTA_SNIPPET.data := rfl
  rw [hd, rstripChars_append _ _ cta_tail_nonws, ← hd]

theorem containsMarker_append_cta (b : String) :
    containsMarker (b ++ "\n\n" ++ CTA_SNIPPET) = true := by
  unfold containsMarker
  have hd : (b ++ "\n\n" ++ CTA_SNIPPET).data
      = (b ++ "\n\n").data ++ CTA_SNIPPET.data := rfl
  rw [hd, occursIn_append_left _ _ _ cta_occurs_landing, Bool.true_or]

theorem build_body_of_marker (b : String) (h : containsMarker (pyRstrip b) = true) :
    build_body_with_cta b = pyRstrip b := by
  unfold build_body_with_cta
  simp [h]

theorem build_body_of_empty (b : String) (h1 : containsMarker (pyRstrip b) = false)
    (h2 : pyRstrip b = "") : build_body_with_cta b = CTA_SNIPPET := by
  have h1' : containsMarker "" = false := h2 ▸ h1
  unfold build_body_with_cta
  simp [h2, h1']

theorem build_body_of_append (b : String) (h1 : containsMarker (pyRstrip b) = false)
    (h2 : ¬ pyRstrip b = "") :
    build_body_with_cta b = pyRstrip b ++ "\n\n" ++ CTA_SNIPPET := by
  unfold build_body_with_cta
  simp [h1, h2]

/-- Claim C5: the promotional-footer injection `build_body_with_cta` is
idempotent — applying it twice gives the same result as applying it once,
because the appended footer contains the marker substrings that the function
checks for, so a second application appends nothing. -/
theorem c5_footer_idempotent (b : String) :
    build_body_with_cta (build_body_with_cta b) = build_body_with_cta b := by
  cases h : containsMarker (pyRstrip b) with
  | true =>
    rw [build_body_of_marker b h]
    rw [build_body_of_marker (pyRstrip b) (by rw [pyRstrip_pyRstrip]; exact h)]
    exact pyRstrip_pyRstrip b
  | false =>
    by_cases h2 : pyRstrip b = ""
    · rw [build_body_of_empty b h h2]
      rw [build_body_of_marker CTA_SNIPPET
            (by rw [pyRstrip_cta]; exact containsMarker_cta)]
      exact pyRstrip_cta
    · rw [build_body_of_append b h h2]
      rw [build_body_of_marker _
            (by rw [pyRstrip_append_cta]; exact containsMarker_append_cta _)]
      exact pyRstrip_append_cta _

/-! ### Lemmas about item selection, in-place update and the run loop -/

theorem nextUnpubDevtoAux_spec (l : List Article) :
    ∀ (i j : Nat), nextUnpubDevtoAux i l = some j →
      ∃ (k : Nat) (a : Article),
        j = i + k ∧ l[k]? = some a ∧ a.devto_published = false := by
  induction l with
  | nil => intro i j h; simp [nextUnpubDevtoAux] at h
  | cons a rest ih =>
    intro i j h
    by_cases hf : a.devto_published
    · simp only [nextUnpubDevtoAux, hf, if_true] at h
      obtain ⟨k, b, hk, hg, hb⟩ := ih (i + 1) j h
      exact ⟨k + 1, b, by omega, by simpa using hg, hb⟩
    · simp only [nextUnpubDevtoAux, hf, if_false] at h
      obtain rfl : i = j := by exact Option.some.inj h
      exact ⟨0, a, by omega, by simp, by simpa using hf⟩

theorem get_next_devto_spec (arts : List Article) (idx : Nat)
    (h : get_next_unpublished_devto_index arts = some idx) :
    ∃ a, arts[idx]? = some a ∧ a.devto_published = false := by
  obtain ⟨k, a, hk, hg, hb⟩ := nextUnpubDevtoAux_spec arts 0 idx h
  obtain rfl : idx = k := by omega
  exact ⟨a, hg, hb⟩

theorem listModify_getElem?_self (f : α → α) :
    ∀ (l : List α) (i : Nat), (listModify f i l)[i]? = (l[i]?).map f := by
  intro l
  induction l with
  | nil => intro i; simp [listModify]
  | cons a t ih =>
    intro i
    cases i with
    | zero => simp [listModify]
    | succ n => simpa [listModify] using ih n

theorem listModify_getElem?_ne (f : α → α) :
    ∀ (l : List α) (i j : Nat), i ≠ j → (listModify f i l)[j]? = l[j]? := by
  intro l
  induction l with
  | nil => intro i j _; simp [listModify]
  | cons a t ih =>
    intro i j hne
    cases i with
    | zero =>
      cases j with
      | zero => exact absurd rfl hne
      | succ m => simp [listModify]
    | succ n =>
      cases j with
      | zero => simp [listModify]
      | succ m => simpa [listModify] using ih n m (by omega)

theorem apply_published_flag (u : Option String) (a : Article) :
    (applyPublishOutcome (DevtoOutcome.published u) a).devto_published = true := by
  cases u with
  | none => rfl
  | some url => by_cases h : url = "" <;> simp [applyPublishOutcome, h]

theorem apply_canonical_flag (a : Article) :
    (applyPublishOutcome DevtoOutcome.canonicalTaken a).devto_published = true := rfl

theorem apply_canonical_url (a : Article) :
    (applyPublishOutcome DevtoOutcome.canonicalTaken a).devto_url = a.devto_url := rfl

theorem apply_published_none_url (a : Article) :
    (applyPublishOutcome (DevtoOutcome.published none) a).devto_url = a.devto_url := rfl

theorem applyPublishOutcome_core (o : DevtoOutcome) (a : Article) :
    (applyPublishOutcome o a).core = a.core := by
  cases o with
  | published u =>
    cases u with
    | none => rfl
    | some url => by_cases h : url = "" <;> simp [applyPublishOutcome, h, Article.core]
  | canonicalTaken => rfl
  | rateLimited => rfl
  | validationError e => rfl
  | otherError e => rfl

theorem listModify_map_core (f : Article → Article)
    (hf : ∀ a, (f a).core = a.core) :
    ∀ (i : Nat) (l : List Article),
      (listModify f i l).map Article.core = l.map Article.core := by
  intro i l
  induction l generalizing i with
  | nil => simp [listModify]
  | cons a t ih =>
    cases i with
    | zero => simp [listModify, hf]
    | succ n => simp [listModify, ih n]

theorem devtoLoop_flagged (k : Option String) (oracle : Nat → HttpResponse) :
    ∀ (fuel attempt : Nat) (arts : List Article) (j : Nat),
      arts[j]?.map Article.devto_published = some true →
      ((devtoLoop k oracle fuel attempt arts).1)[j]? = arts[j]? ∧
        countEv (Event.submit j) (devtoLoop k oracle fuel attempt arts).2 = 0 := by
  intro fuel
  induction fuel with
  | zero => intro attempt arts j _; exact ⟨rfl, rfl⟩
  | succ fuel ih =>
    intro attempt arts j hj
    cases hn : get_next_unpublished_devto_index arts with
    | none => simp [devtoLoop, hn, countEv]
    | some idx =>
      obtain ⟨a0, ha0, hf0⟩ := get_next_devto_spec arts idx hn
      have hne : idx ≠ j := by
        intro he
        subst he
        rw [ha0] at hj
        simp [hf0] at hj
      cases k with
      | none => simp [devtoLoop, hn, countEv, hne]
      | some key =>
        cases ho : classify_devto (oracle attempt) with
        | published u =>
          have harts' :
              (listModify (applyPublishOutcome (DevtoOutcome.published u)) idx arts)[j]?
                = arts[j]? := listModify_getElem?_ne _ _ _ _ hne
          have ihres := ih (attempt + 1)
            (listModify (applyPublishOutcome (DevtoOutcome.published u)) idx arts) j
            (by rw [harts']; exact hj)
          refine ⟨?_, ?_⟩
          · simp only [devtoLoop, hn, ho]
            rw [ihres.1, harts']
          · simp only [devtoLoop, hn, ho, countEv]
            simp [hne, ihres.2]
        | canonicalTaken =>
          have harts' :
              (listModify (applyPublishOutcome DevtoOutcome.canonicalTaken) idx arts)[j]?
                = arts[j]? := listModify_getElem?_ne _ _ _ _ hne
          have ihres := ih (attempt + 1)
            (listModify (applyPublishOutcome DevtoOutcome.canonicalTaken) idx arts) j
            (by rw [harts']; exact hj)
          refine ⟨?_, ?_⟩
          · simp only [devtoLoop, hn, ho]
            rw [ihres.1, harts']
          · simp only [devtoLoop, hn, ho, countEv]
            simp [hne, ihres.2]
        | rateLimited => simp [devtoLoop, hn, ho, countEv, hne]
        | validationError e => simp [devtoLoop, hn, ho, countEv, hne]
        | otherError e => simp [devtoLoop, hn, ho, countEv, hne]

theorem devtoLoop_core (k : Option String) (oracle : Nat → HttpResponse) :
    ∀ (fuel attempt : Nat) (arts : List Article),
      ((devtoLoop k oracle fuel attempt arts).1).map Article.core
        = arts.map Article.core := by
  intro fuel
  induction fuel with
  | zero => intro attempt arts; rfl
  | succ fuel ih =>
    intro attempt arts
    cases hn : get_next_unpublished_devto_index arts with
    | none => simp [devtoLoop, hn]
    | some idx =>
      cases k with
      | none => simp [devtoLoop, hn]
      | some key =>
        cases ho : classify_devto (oracle attempt) with
        | published u =>
          simp only [devtoLoop, hn, ho]
          rw [ih, listModify_map_core _ (fun a => applyPublishOutcome_core _ a)]
        | canonicalTaken =>
          simp only [devtoLoop, hn, ho]
          rw [ih, listModify_map_core _ (fun a => applyPublishOutcome_core _ a)]
        | rateLimited => simp [devtoLoop, hn, ho]
        | validationError e => simp [devtoLoop, hn, ho]
        | otherError e => simp [devtoLoop, hn, ho]

theorem devtoLoop_paced (k : Option String) (oracle : Nat → HttpResponse) :
    ∀ (fuel attempt : Nat) (arts : List Article),
      countEv Event.sleep (devtoLoop k oracle fuel attempt arts).2
          = countEv Event.save (devtoLoop k oracle fuel attempt arts).2 ∧
        pacedAfterSave (devtoLoop k oracle fuel attempt arts).2 = true := by
  intro fuel
  induction fuel with
  | zero => intro attempt arts; exact ⟨rfl, rfl⟩
  | succ fuel ih =>
    intro attempt arts
    cases hn : get_next_unpublished_devto_index arts with
    | none => simp [devtoLoop, hn, countEv, pacedAfterSave]
    | some idx =>
      cases k with
      | none => simp [devtoLoop, hn, countEv, pacedAfterSave]
      | some key =>
        cases ho : classify_devto (oracle attempt) with
        | published u =>
          have ihres := ih (attempt + 1)
            (listModify (applyPublishOutcome (DevtoOutcome.published u)) idx arts)
          simp only [devtoLoop, hn, ho]
          refine ⟨?_, ?_⟩
          · simp [countEv, ihres.1]
          · simp [pacedAfterSave, ihres.2]
        | canonicalTaken =>
          have ihres := ih (attempt + 1)
            (listModify (applyPublishOutcome DevtoOutcome.canonicalTaken) idx arts)
          simp only [devtoLoop, hn, ho]
          refine ⟨?_, ?_⟩
          · simp [countEv, ihres.1]
          · simp [pacedAfterSave, ihres.2]
        | rateLimited => simp [devtoLoop, hn, ho, countEv, pacedAfterSave]
        | validationError e => simp [devtoLoop, hn, ho, countEv, pacedAfterSave]
        | otherError e => simp [devtoLoop, hn, ho, countEv, pacedAfterSave]

theorem filterPartitionPerm (p : Article → Bool) :
    ∀ l : List Article, (l.filter (fun a => !p a) ++ l.filter p).Perm l := by
  intro l
  induction l with
  | nil => simp
  | cons a t ih =>
    cases hp : p a with
    | true =>
      rw [show (a :: t).filter (fun x => !p x) = t.filter (fun x => !p x) by
            simp [List.filter_cons, hp],
          show (a :: t).filter p = a :: t.filter p by simp [List.filter_cons, hp]]
      exact List.perm_middle.trans (ih.cons a)
    | false =>
      rw [show (a :: t).filter (fun x => !p x) = a :: t.filter (fun x => !p x) by
            simp [List.filter_cons, hp],
          show (a :: t).filter p = t.filter p by simp [List.filter_cons, hp]]
      exact ih.cons a

/-! ### Concrete fixtures: articles and response oracles -/

/-- A pending article with no per-platform state recorded yet. -/
def artA : Article :=
  { title := "Sentiment basics"
  , body_markdown := "Intro to sentiment analysis."
  , content_markdown := "Intro to sentiment analysis, long form."
  , canonical_url := "https://blog.example.com/sentiment-basics"
  , series := none
  , tags := ["python", "nlp"]
  , devto_published := false
  , devto_url := none
  , hashnode_published := false
  , hashnode_url := none }

/-- A second pending article, queued behind `artA`. -/
def artB : Article :=
  { title := "Keyword extraction"
  , body_markdown := "Extracting keywords."
  , content_markdown := "Extracting keywords, long form."
  , canonical_url := "https://blog.example.com/keyword-extraction"
  , series := none
  , tags := ["nlp"]
  , devto_published := false
  , devto_url := none
  , hashnode_published := false
  , hashnode_url := none }

/-- A pending article used for the canonical-collision scenario. -/
def artCanon : Article :=
  { title := "Entity extraction API"
  , body_markdown := "Entities."
  , content_markdown := "Entities, long form."
  , canonical_url := "https://blog.example.com/entity-api"
  , series := none
  , tags := ["api"]
  , devto_published := false
  , devto_url := none
  , hashnode_published := false
  , hashnode_url := none }

/-- A pending article used for the 201-without-url scenario. -/
def artNoUrl : Article :=
  { title := "Language detection"
  , body_markdown := "Detecting languages."
  , content_markdown := "Detecting languages, long form."
  , canonical_url := "https://blog.example.com/lang-detect"
  , series := none
  , tags := ["nlp", "api"]
  , devto_published := false
  , devto_url := none
  , hashnode_published := false
  , hashnode_url := none }

/-- An article whose raw tag list has five tags with upper-case characters. -/
def tagArticle : Article :=
  { title := "Five tags"
  , body_markdown := "Body."
  , content_markdown := "Body, long form."
  , canonical_url := "https://blog.example.com/five-tags"
  , series := none
  , tags := ["ML", "AI", "NLP", "DataScience", "CloudComputing"]
  , devto_published := false
  , devto_url := none
  , hashnode_published := false
  , hashnode_url := none }

/-- Oracle answering every POST with a 422 validation error that is not the
canonical-collision message. -/
def vOracle : Nat → HttpResponse := fun _ =>
  { status_code := 422, text := "Validation failed: Title is too long", json_url := none }

/-- Oracle answering every POST with the canonical-collision 422. -/
def ctOracle : Nat → HttpResponse := fun _ =>
  { status_code := 422, text := "Canonical url has already been taken", json_url := none }

/-- Oracle answering every POST with 429. -/
def rlOracle : Nat → HttpResponse := fun _ =>
  { status_code := 429, text := "Too many requests", json_url := none }

/-- Oracle answering every POST with 201 and a published url in the body. -/
def okOracle : Nat → HttpResponse := fun _ =>
  { status_code := 201, text := "created", json_url := some "https://dev.to/compass/post-1" }

/-- Oracle answering every POST with 201 but no url in the response body. -/
def okNoUrlOracle : Nat → HttpResponse := fun _ =>
  { status_code := 201, text := "created", json_url := none }

/-! ### Claim theorems -/

/-- Claim C1, as stated, is false: the code applies no tag normalization, so a
five-tag input reaches the payload with five tags, exceeding the claimed cap
of 4 (the tags are not lower-cased or filtered either). -/
theorem c1_counterexample : ¬ ((buildDevtoPayload tagArticle).tags.length ≤ 4) := by
  decide

/-- Claim C1 (amended): the tag sequence attached to a submitted item is the
raw input tag list unchanged — no cap, no lower-casing, no alphabet
filtering, no truncation, no de-duplication — for the Dev.to payload, and the
Hashnode payload maps each raw tag to a TagInput with slug and name both the
raw tag. -/
theorem c1_tags_passthrough (pub : Option String) (a : Article) :
    (buildDevtoPayload a).tags = a.tags ∧
      (build_hashnode_payload pub a).input.tags
        = a.tags.map (fun t => { slug := t, tagName := t }) :=
  ⟨rfl, rfl⟩

/-- Claim C2, as stated, is false: on a non-canonical 422 validation error the
run stops with the item still in the Queue, nothing archived or persisted,
and the next eligible item (`artB`, index 1) never attempted. -/
theorem c2_counterexample :
    (devtoMain (some "k") vOracle 3 [artA, artB]).1 = [artA, artB] ∧
      artA ∈ devtoQueue (devtoMain (some "k") vOracle 3 [artA, artB]).1 ∧
      countEv Event.save (devtoMain (some "k") vOracle 3 [artA, artB]).2 = 0 ∧
      countEv (Event.submit 1) (devtoMain (some "k") vOracle 3 [artA, artB]).2 = 0 := by
  decide

/-- Claim C2 (amended): on a 4xx validation error other than the
canonical-collision case, the run terminates immediately: the item stays in
the Queue unchanged, nothing is archived or persisted, and no subsequent item
is attempted. -/
theorem c2_validation_halts (key : String) (oracle : Nat → HttpResponse)
    (fuel : Nat) (arts : List Article) (idx : Nat) (e : String)
    (hn : get_next_unpublished_devto_index arts = some idx)
    (hc : classify_devto (oracle 0) = DevtoOutcome.validationError e) :
    devtoMain (some key) oracle (fuel + 1) arts
      = (arts, [Event.loadQueue, Event.selectItem idx, Event.submit idx]) := by
  unfold devtoMain
  simp [devtoLoop, hn, hc]

/-- Witness for `c2_validation_halts` at a concrete run. -/
theorem c2_validation_halts_witness :
    devtoMain (some "k") vOracle 3 [artA, artB]
      = ([artA, artB], [Event.loadQueue, Event.selectItem 0, Event.submit 0]) :=
  c2_validation_halts "k" vOracle 2 [artA, artB] 0
    "Validation failed: Title is too long" (by decide) (by decide)

/-- Claim C4: when the first submission of a run is classified retryable (429
or a 5xx status), the run terminates immediately after that one submission:
the article list is returned unchanged, nothing is saved, no pacing delay
runs, and no further item is attempted. -/
theorem c4_retryable_halts (key : String) (oracle : Nat → HttpResponse)
    (fuel : Nat) (arts : List Article) (idx : Nat)
    (hn : get_next_unpublished_devto_index arts = some idx)
    (hr : (oracle 0).status_code = 429 ∨ 500 ≤ (oracle 0).status_code) :
    devtoMain (some key) oracle (fuel + 1) arts
      = (arts, [Event.loadQueue, Event.selectItem idx, Event.submit idx]) := by
  have hc : classify_devto (oracle 0) = DevtoOutcome.rateLimited ∨
      classify_devto (oracle 0) = DevtoOutcome.otherError (oracle 0).text := by
    rcases hr with h | h
    · left
      unfold classify_devto
      rw [h]
      simp
    · right
      have h201 : ¬ (oracle 0).status_code = 201 := by omega
      have h429 : ¬ (oracle 0).status_code = 429 := by omega
      have h422 : ¬ (oracle 0).status_code = 422 := by omega
      unfold classify_devto
      simp [h201, h429, h422]
  unfold devtoMain
  rcases hc with hc | hc <;> simp [devtoLoop, hn, hc]

/-- Witness for `c4_retryable_halts` at a concrete 429 run. -/
theorem c4_retryable_halts_witness :
    devtoMain (some "k") rlOracle 3 [artA, artB]
      = ([artA, artB], [Event.loadQueue, Event.selectItem 0, Event.submit 0]) :=
  c4_retryable_halts "k" rlOracle 2 [artA, artB] 0 (by decide) (by decide)

/-- Claim C8, as stated, is false: with the API key missing, the queue is
loaded and the first eligible item selected before the configuration abort
fires (the abort sits inside `publish_to_devto`, after `load_articles`). -/
theorem c8_counterexample :
    Event.configAbort ∈ (devtoMain none rlOracle 3 [artA]).2 ∧
      (devtoMain none rlOracle 3 [artA]).2.head? = some Event.loadQueue ∧
      (devtoMain none rlOracle 3 [artA]).2
        = [Event.loadQueue, Event.selectItem 0, Event.configAbort] := by
  decide

/-- Claim C8 (amended): with the API key missing and at least one eligible
pending item, the run aborts at the first submission attempt — after the
queue has been loaded and the first eligible item selected, but before any
network submission — and no state is modified or persisted. -/
theorem c8_missing_key_aborts (oracle : Nat → HttpResponse) (fuel : Nat)
    (arts : List Article) (idx : Nat)
    (hn : get_next_unpublished_devto_index arts = some idx) :
    devtoMain none oracle (fuel + 1) arts
      = (arts, [Event.loadQueue, Event.selectItem idx, Event.configAbort]) := by
  unfold devtoMain
  simp [devtoLoop, hn]

/-- Witness for `c8_missing_key_aborts` at a concrete run. -/
theorem c8_missing_key_aborts_witness :
    devtoMain none okOracle 3 [artA]
      = ([artA], [Event.loadQueue, Event.selectItem 0, Event.configAbort]) :=
  c8_missing_key_aborts okOracle 2 [artA] 0 (by decide)

/-- Claim C3, as stated, is false: after a canonical-collision 422 the item is
marked published, but no published URL is recorded — `devto_url` stays
absent instead of being set to the item's own canonical URL. -/
theorem c3_counterexample :
    ((devtoMain (some "k") ctOracle 3 [artCanon]).1.map Article.devto_url) = [none] ∧
      ((devtoMain (some "k") ctOracle 3 [artCanon]).1.map Article.devto_url)
        ≠ [some artCanon.canonical_url] := by
  decide

/-- Claim C3 (amended): on a 422 whose message indicates the canonical URL is
already taken, the item is marked published exactly once (its flag is set and
it is submitted exactly once in the run, never retried), but no published URL
is recorded: `devto_url` is left unchanged rather than set to the item's
canonical URL. -/
theorem c3_canonical_marks_published (key : String) (oracle : Nat → HttpResponse)
    (fuel : Nat) (arts : List Article) (idx : Nat)
    (hn : get_next_unpublished_devto_index arts = some idx)
    (hc : classify_devto (oracle 0) = DevtoOutcome.canonicalTaken) :
    ((devtoMain (some key) oracle (fuel + 1) arts).1)[idx]?.map Article.devto_published
        = some true ∧
      ((devtoMain (some key) oracle (fuel + 1) arts).1)[idx]?.map Article.devto_url
        = arts[idx]?.map Article.devto_url ∧
      countEv (Event.submit idx) (devtoMain (some key) oracle (fuel + 1) arts).2 = 1 := by
  obtain ⟨a0, ha0, hf0⟩ := get_next_devto_spec arts idx hn
  have harts' :
      (listModify (applyPublishOutcome DevtoOutcome.canonicalTaken) idx arts)[idx]?
        = some (applyPublishOutcome DevtoOutcome.canonicalTaken a0) := by
    rw [listModify_getElem?_self, ha0]
    rfl
  have hflag' :
      (listModify (applyPublishOutcome DevtoOutcome.canonicalTaken) idx arts)[idx]?.map
        Article.devto_published = some true := by
    rw [harts', Option.map_some', apply_canonical_flag]
  have hfu := devtoLoop_flagged (some key) oracle fuel 1
    (listModify (applyPublishOutcome DevtoOutcome.canonicalTaken) idx arts) idx hflag'
  have hstep : devtoLoop (some key) oracle (fuel + 1) 0 arts
      = ((devtoLoop (some key) oracle fuel 1
            (listModify (applyPublishOutcome DevtoOutcome.canonicalTaken) idx arts)).1,
         Event.selectItem idx :: Event.submit idx :: Event.save :: Event.sleep ::
           (devtoLoop (some key) oracle fuel 1
            (listModify (applyPublishOutcome DevtoOutcome.canonicalTaken) idx arts)).2) := by
    simp [devtoLoop, hn, hc]
  unfold devtoMain
  rw [hstep]
  refine ⟨?_, ?_, ?_⟩
  · rw [hfu.1]
    exact hflag'
  · rw [hfu.1, harts', Option.map_some', apply_canonical_url, ha0, Option.map_some']
  · simp [countEv, hfu.2]

/-- Witness for `c3_canonical_marks_published` at a concrete run. -/
theorem c3_canonical_marks_published_witness :
    ((devtoMain (some "k") ctOracle 3 [artCanon]).1)[0]?.map Article.devto_published
        = some true ∧
      ((devtoMain (some "k") ctOracle 3 [artCanon]).1)[0]?.map Article.devto_url
        = [artCanon][0]?.map Article.devto_url ∧
      countEv (Event.submit 0) (devtoMain (some "k") ctOracle 3 [artCanon]).2 = 1 :=
  c3_canonical_marks_published "k" ctOracle 2 [artCanon] 0 (by decide) (by decide)

/-- Claim C6: runs of both publishers preserve the item population — the
platform-independent content of the article list is unchanged (no item
created, destroyed, duplicated or reordered) — and the articles partition
into pending Queue and Archive for each platform. -/
theorem c6_partition_invariant (apiKey : Option String) (oracle : Nat → HttpResponse)
    (cap : Nat) (creds : Option (String × String)) (outcome : Option String)
    (arts : List Article) :
    ((devtoMain apiKey oracle cap arts).1).map Article.core = arts.map Article.core ∧
      ((hashnodeMain creds outcome arts).1).map Article.core = arts.map Article.core ∧
      (devtoQueue arts ++ devtoArchive arts).Perm arts ∧
      (hashnodeQueue arts ++ hashnodeArchive arts).Perm arts := by
  refine ⟨devtoLoop_core apiKey oracle cap 0 arts, ?_,
    filterPartitionPerm (fun a => a.devto_published) arts,
    filterPartitionPerm (fun a => a.hashnode_published) arts⟩
  unfold hashnodeMain
  cases hn : get_next_unpublished_hashnode_index arts with
  | none => rfl
  | some idx =>
    cases creds with
    | none => rfl
    | some c =>
      cases outcome with
      | some url =>
        show (listModify
            (fun a => { a with hashnode_published := true, hashnode_url := some url })
            idx arts).map Article.core = arts.map Article.core
        exact listModify_map_core
          (fun a => { a with hashnode_published := true, hashnode_url := some url })
          (fun a => rfl) idx arts
      | none => rfl

/-- Claim C7, as stated, is false: on a 201 success whose body has no
resolvable url, the item is marked published but `devto_url` stays absent —
there is no fallback to the item's canonical URL. -/
theorem c7_counterexample :
    ((devtoMain (some "k") okNoUrlOracle 3 [artNoUrl]).1.map Article.devto_url)
        = [none] ∧
      ((devtoMain (some "k") okNoUrlOracle 3 [artNoUrl]).1.map Article.devto_url)
        ≠ [some artNoUrl.canonical_url] := by
  decide

/-- Claim C7 (amended): on a 201 success with no resolvable published URL in
the response body, the item is archived as published (its flag is set) with
no published URL recorded: `devto_url` is left unchanged, with no fallback to
the canonical URL. -/
theorem c7_published_without_url (key : String) (oracle : Nat → HttpResponse)
    (fuel : Nat) (arts : List Article) (idx : Nat)
    (hn : get_next_unpublished_devto_index arts = some idx)
    (hc : classify_devto (oracle 0) = DevtoOutcome.published none) :
    ((devtoMain (some key) oracle (fuel + 1) arts).1)[idx]?.map Article.devto_published
        = some true ∧
      ((devtoMain (some key) oracle (fuel + 1) arts).1)[idx]?.map Article.devto_url
        = arts[idx]?.map Article.devto_url := by
  obtain ⟨a0, ha0, hf0⟩ := get_next_devto_spec arts idx hn
  have harts' :
      (listModify (applyPublishOutcome (DevtoOutcome.published none)) idx arts)[idx]?
        = some (applyPublishOutcome (DevtoOutcome.published none) a0) := by
    rw [listModify_getElem?_self, ha0]
    rfl
  have hflag' :
      (listModify (applyPublishOutcome (DevtoOutcome.published none)) idx arts)[idx]?.map
        Article.devto_published = some true := by
    rw [harts', Option.map_some', apply_published_flag]
  have hfu := devtoLoop_flagged (some key) oracle fuel 1
    (listModify (applyPublishOutcome (DevtoOutcome.published none)) idx arts) idx hflag'
  have hstep : devtoLoop (some key) oracle (fuel + 1) 0 arts
      = ((devtoLoop (some key) oracle fuel 1
            (listModify (applyPublishOutcome (DevtoOutcome.published none)) idx arts)).1,
         Event.selectItem idx :: Event.submit idx :: Event.save :: Event.sleep ::
           (devtoLoop (some key) oracle fuel 1
            (listModify (applyPublishOutcome (DevtoOutcome.published none)) idx arts)).2) := by
    simp [devtoLoop, hn, hc]
  unfold devtoMain
  rw [hstep]
  refine ⟨?_, ?_⟩
  · rw [hfu.1]
    exact hflag'
  · rw [hfu.1, harts', Option.map_some', apply_published_none_url, ha0, Option.map_some']

/-- Witness for `c7_published_without_url` at a concrete run. -/
theorem c7_published_without_url_witness :
    ((devtoMain (some "k") okNoUrlOracle 3 [artNoUrl]).1)[0]?.map Article.devto_published
        = some true ∧
      ((devtoMain (some "k") okNoUrlOracle 3 [artNoUrl]).1)[0]?.map Article.devto_url
        = [artNoUrl][0]?.map Article.devto_url :=
  c7_published_without_url "k" okNoUrlOracle 2 [artNoUrl] 0 (by decide) (by decide)

/-- Claim C9, as stated, is false: with a success cap of 1, the single
permitted success is followed by the pacing delay even though no further
success is permitted — the code sleeps unconditionally after every success,
so the trace of a cap-1 run contains one sleep where the claim requires
none. -/
theorem c9_counterexample :
    countEv Event.sleep (devtoMain (some "k") okOracle 1 [artA]).2 = 1 ∧
      countEv Event.save (devtoMain (some "k") okOracle 1 [artA]).2 = 1 := by
  decide

/-- Claim C9 (amended): after every Published (or canonical-collision)
transition the run applies the pacing delay unconditionally before issuing
any further submission — each save is immediately followed by a sleep, and
sleeps and saves are in bijection — including after the final success when
the cap is reached. -/
theorem c9_pacing_after_success (apiKey : Option String) (oracle : Nat → HttpResponse)
    (cap : Nat) (arts : List Article) :
    countEv Event.sleep (devtoMain apiKey oracle cap arts).2
        = countEv Event.save (devtoMain apiKey oracle cap arts).2 ∧
      pacedAfterSave (devtoMain apiKey oracle cap arts).2 = true := by
  have h := devtoLoop_paced apiKey oracle cap 0 arts
  unfold devtoMain
  refine ⟨?_, ?_⟩
  · simpa [countEv] using h.1
  · simpa [pacedAfterSave] using h.2

/-- Claim C10: a Hashnode invocation submits at most one article (and only
the first one whose flag is unset), saves the store at most once, saves only
when the publish returned a URL, and on failure leaves the article list
unchanged with no save at all. -/
theorem c10_hashnode_single_shot (creds : Option (String × String))
    (outcome : Option String) (arts : List Article) :
    countSubmits (hashnodeMain creds outcome arts).2 ≤ 1 ∧
      countEv Event.save (hashnodeMain creds outcome arts).2 ≤ 1 ∧
      (outcome = none → (hashnodeMain creds outcome arts).1 = arts ∧
        countEv Event.save (hashnodeMain creds outcome arts).2 = 0) ∧
      (∀ idx, Event.submit idx ∈ (hashnodeMain creds outcome arts).2 →
        get_next_unpublished_hashnode_index arts = some idx) ∧
      (countEv Event.save (hashnodeMain creds outcome arts).2 = 1 →
        outcome ≠ none) := by
  unfold hashnodeMain
  cases hn : get_next_unpublished_hashnode_index arts with
  | none =>
    refine ⟨by simp [countSubmits, isSubmitEv], by simp [countEv], fun _ => ⟨rfl, rfl⟩,
      ?_, ?_⟩
    · intro idx hmem
      simp at hmem
    · intro hsv
      simp [countEv] at hsv
  | some idx0 =>
    cases creds with
    | none =>
      refine ⟨by simp [countSubmits, isSubmitEv], by simp [countEv], fun _ => ⟨rfl, ?_⟩,
        ?_, ?_⟩
      · simp [countEv]
      · intro idx hmem
        simp at hmem
      · intro hsv
        simp [countEv] at hsv
    | some c =>
      cases outcome with
      | some url =>
        refine ⟨by simp [countSubmits, isSubmitEv], by simp [countEv],
          fun h => by exact absurd h (by simp), ?_, fun _ => by simp⟩
        intro idx hmem
        simp at hmem
        rw [hmem]
      | none =>
        refine ⟨by simp [countSubmits, isSubmitEv], by simp [countEv],
          fun _ => ⟨rfl, by simp [countEv]⟩, ?_, ?_⟩
        · intro idx hmem
          simp at hmem
          rw [hmem]
        · intro hsv
          simp [countEv] at hsv

/-- Witness for `c10_hashnode_single_shot` at a concrete failed run. -/
theorem c10_hashnode_single_shot_witness :
    (hashnodeMain (some ("k", "p")) none [artA]).1 = [artA] ∧
      countEv Event.save (hashnodeMain (some ("k", "p")) none [artA]).2 = 0 :=
  (c10_hashnode_single_shot (some ("k", "p")) none [artA]).2.2.1 rfl
